import Mathlib

/- Formal model of the gl_fix_tool repository (GL Correction and Stock Valuation Fix
   doctypes).  Python floats are modelled as rationals, the database of GL Entry rows
   as a list, and frappe.throw as the error case of Except.  Audit comments added via
   add_comment are collected in a list of strings; message format arguments that the
   source interpolates (timestamps, numeric differences) are dropped from the model
   where they do not matter to any claim. -/

namespace GLFixTool

/- The Batteries rational arithmetic definitions are irreducible by default, which
   blocks definitional evaluation of concrete runs of the model; re-allow unfolding
   within this file so that concrete witnesses evaluate. -/
attribute [local semireducible] Rat.add Rat.sub Rat.mul Rat.inv Rat.ofScientific

/- One row of the GL Entry table, with the columns read or written by gl_correction.py.
   String fields model framework Data/Link fields, where the empty string stands for an
   unset (falsy) value, matching Python truthiness tests on those fields. -/
structure GLEntry where
  name : String := ""
  company : String := ""
  voucher_type : String := ""
  voucher_no : String := ""
  posting_date : String := ""
  is_cancelled : Bool := false
  account : String := ""
  party_type : String := ""
  party : String := ""
  cost_center : String := ""
  debit : Rat := 0
  credit : Rat := 0
  debit_in_account_currency : Rat := 0
  credit_in_account_currency : Rat := 0
  debit_in_transaction_currency : Rat := 0
  credit_in_transaction_currency : Rat := 0
deriving DecidableEq, Repr

/- One child row of the GL Correction Line table: the editable fields plus the
   original_* snapshot captured by fetch_gl_entries. -/
structure GLCorrectionLine where
  account : String := ""
  party_type : String := ""
  party : String := ""
  cost_center : String := ""
  debit : Rat := 0
  credit : Rat := 0
  reference_gl_entry : String := ""
  original_account : String := ""
  original_cost_center : String := ""
  original_debit : Rat := 0
  original_credit : Rat := 0
  original_debit_in_account_currency : Rat := 0
  original_credit_in_account_currency : Rat := 0
  original_debit_in_transaction_currency : Rat := 0
  original_credit_in_transaction_currency : Rat := 0
deriving DecidableEq, Repr

/- The GL Correction parent document.  docstatus follows the framework convention:
   0 draft, 1 submitted, 2 cancelled. -/
structure GLCorrection where
  docstatus : Nat := 0
  company : String := ""
  voucher_type : String := ""
  voucher_no : String := ""
  posting_date : String := ""
  entries : List GLCorrectionLine := []
  total_debit : Rat := 0
  total_credit : Rat := 0
  difference : Rat := 0
  status : String := ""
deriving DecidableEq, Repr

/- Result dictionary of fetch_gl_entries. -/
structure FetchResult where
  count : Nat := 0
  total_debit : Rat := 0
  total_credit : Rat := 0
deriving DecidableEq, Repr

/- The Repost Item Valuation document created by repost_valuation. -/
structure RepostItemValuation where
  name : String := ""
  company : String := ""
  voucher_type : String := ""
  voucher_no : String := ""
deriving DecidableEq, Repr

/- Result dictionary of repost_valuation. -/
structure RepostResult where
  created : Nat := 0
  repost_name : Option String := none
deriving DecidableEq, Repr

deriving instance DecidableEq for Except

/- Python abs() on the rational model of floats, written executably so that concrete
   runs of the model reduce. -/
def ratAbs (x : Rat) : Rat := if x < 0 then -x else x

/- Tests whether an Except value is the throw case. -/
def isError {α : Type} (e : Except String α) : Bool :=
  match e with
  | Except.error _ => true
  | Except.ok _ => false

/- GLCorrection.update_totals: sum all child rows and update
   total_debit / total_credit / difference (gl_correction.py lines 47-58). -/
def GLCorrection.update_totals (doc : GLCorrection) : GLCorrection :=
  let total_debit := doc.entries.foldl (fun acc row => acc + row.debit) (0 : Rat)
  let total_credit := doc.entries.foldl (fun acc row => acc + row.credit) (0 : Rat)
  { doc with
    total_debit := total_debit,
    total_credit := total_credit,
    difference := total_debit - total_credit }

/- GLCorrection.validate_totals (gl_correction.py lines 60-71): throw when the entries
   table is empty or the absolute difference exceeds 0.0001.  The source interpolates
   the difference into the second message; the model keeps a fixed message text. -/
def GLCorrection.validate_totals (doc : GLCorrection) : Except String Unit :=
  if doc.entries = [] then
    Except.error "Please add at least one row in Entries table."
  else if ratAbs doc.difference > (1 / 10000 : Rat) then
    Except.error "Total Debit and Total Credit must be equal."
  else
    Except.ok ()

/- GLCorrection.validate (gl_correction.py lines 24-27): run on every Save/Submit;
   recompute totals and then validate them.  Returns the recomputed document on
   success.  This is also the validation the framework runs inside self.save(...),
   which fetch_gl_entries and rollback_gl_updates call. -/
def GLCorrection.validate (doc : GLCorrection) : Except String GLCorrection :=
  match (doc.update_totals).validate_totals with
  | Except.error e => Except.error e
  | Except.ok _ => Except.ok doc.update_totals

/- The effect of update_gl_entry_amounts (gl_correction.py lines 430-494) on the single
   GL Entry row it targets.  The source builds a dict of updates with conditionally
   present keys and applies it with one db.set_value; here each field is written as
   old value when its key is absent and as the computed value when present, with the
   same guard conditions as the source (Python float truthiness becomes a nonzero
   test, and the optional debit_factor / credit_factor keep their Option shape). -/
def update_gl_entry_amounts_core (gle : GLEntry) (new_debit new_credit : Rat) : GLEntry :=
  let old_debit := gle.debit
  let old_credit := gle.credit
  let nd := new_debit
  let nc := new_credit
  let debit_factor : Option Rat := if old_debit ≠ 0 then some (nd / old_debit) else none
  let credit_factor : Option Rat := if old_credit ≠ 0 then some (nc / old_credit) else none
  let old_d_acc := gle.debit_in_account_currency
  let old_d_trn := gle.debit_in_transaction_currency
  let old_c_acc := gle.credit_in_account_currency
  let old_c_trn := gle.credit_in_transaction_currency
  { gle with
    debit := if old_debit ≠ 0 ∨ nd ≠ 0 then nd else gle.debit,
    debit_in_account_currency :=
      if (old_debit ≠ 0 ∨ nd ≠ 0) ∧ (old_d_acc ≠ 0 ∨ debit_factor.isSome) then
        if old_debit ≠ 0 ∧ debit_factor.isSome then old_d_acc * debit_factor.getD 0
        else nd
      else old_d_acc,
    debit_in_transaction_currency :=
      if (old_debit ≠ 0 ∨ nd ≠ 0) ∧ (old_d_trn ≠ 0 ∨ debit_factor.isSome) then
        if old_debit ≠ 0 ∧ debit_factor.isSome then old_d_trn * debit_factor.getD 0
        else if nd = 0 then 0 else old_d_trn
      else old_d_trn,
    credit := if old_credit ≠ 0 ∨ nc ≠ 0 then nc else gle.credit,
    credit_in_account_currency :=
      if (old_credit ≠ 0 ∨ nc ≠ 0) ∧ (old_c_acc ≠ 0 ∨ credit_factor.isSome) then
        if old_credit ≠ 0 ∧ credit_factor.isSome then old_c_acc * credit_factor.getD 0
        else nc
      else old_c_acc,
    credit_in_transaction_currency :=
      if (old_credit ≠ 0 ∨ nc ≠ 0) ∧ (old_c_trn ≠ 0 ∨ credit_factor.isSome) then
        if old_credit ≠ 0 ∧ credit_factor.isSome then old_c_trn * credit_factor.getD 0
        else if nc = 0 then 0 else old_c_trn
      else old_c_trn }

/- update_gl_entry_amounts at the database level: throw when the GL Entry is not
   found, otherwise update the row with that name. -/
def update_gl_entry_amounts (db : List GLEntry) (gl_entry_name : String)
    (new_debit new_credit : Rat) : Except String (List GLEntry) :=
  match db.find? (fun g => g.name == gl_entry_name) with
  | none => Except.error ("GL Entry " ++ gl_entry_name ++ " not found")
  | some _ =>
    Except.ok (db.map (fun g =>
      if g.name = gl_entry_name then update_gl_entry_amounts_core g new_debit new_credit
      else g))

/- The account / cost_center part of one apply_gl_updates loop iteration
   (gl_correction.py lines 198-211): each field is written only when the row value is
   truthy and differs from the stored value. -/
def apply_account_cc_row (row : GLCorrectionLine) (g : GLEntry) : GLEntry :=
  { g with
    account := if row.account ≠ "" ∧ g.account ≠ row.account then row.account else g.account,
    cost_center :=
      if row.cost_center ≠ "" ∧ g.cost_center ≠ row.cost_center then row.cost_center
      else g.cost_center }

/- The db.set_value carrying the account / cost_center updates of one loop iteration,
   applied to the row named by reference_gl_entry. -/
def apply_account_cc_updates (db : List GLEntry) (row : GLCorrectionLine) : List GLEntry :=
  db.map (fun g => if g.name = row.reference_gl_entry then apply_account_cc_row row g else g)

/- The combined effect of one apply_gl_updates loop iteration on the referenced
   GL Entry row: amount update followed by the conditional account / cost_center
   update. -/
def apply_row_core (row : GLCorrectionLine) (g : GLEntry) : GLEntry :=
  apply_account_cc_row row (update_gl_entry_amounts_core g row.debit row.credit)

/- The loop body of apply_gl_updates (gl_correction.py lines 191-213) over the child
   rows: rows with an empty reference_gl_entry are skipped, otherwise the referenced
   GL Entry is updated and the counter incremented. -/
def apply_rows : List GLEntry → List GLCorrectionLine → Except String (List GLEntry × Nat)
  | db, [] => Except.ok (db, 0)
  | db, row :: rest =>
    if row.reference_gl_entry = "" then apply_rows db rest
    else
      match update_gl_entry_amounts db row.reference_gl_entry row.debit row.credit with
      | Except.error e => Except.error e
      | Except.ok db2 =>
        match apply_rows (apply_account_cc_updates db2 row) rest with
        | Except.error e => Except.error e
        | Except.ok (db3, n) => Except.ok (db3, n + 1)

/- The number of child rows with a non-empty reference_gl_entry: the value of the
   updated / restored counters of apply_gl_updates and rollback_gl_updates. -/
def countRefs : List GLCorrectionLine → Nat
  | [] => 0
  | row :: rest => (if row.reference_gl_entry = "" then 0 else 1) + countRefs rest

/- Audit comment written by apply_gl_updates. -/
def applyComment (n : Nat) : String :=
  "Apply GL Updates executed. " ++ toString n ++ " GL Entry row(s) updated."

/- GLCorrection.apply_gl_updates (gl_correction.py lines 165-235): only allowed on a
   submitted document; pushes every child row with a reference back into the GL Entry
   table, sets the status to GL Updated, logs a comment and returns the count. -/
def GLCorrection.apply_gl_updates (db : List GLEntry) (doc : GLCorrection)
    (comments : List String) :
    Except String (List GLEntry × GLCorrection × List String × Nat) :=
  if doc.docstatus ≠ 1 then
    Except.error "Apply GL Updates is only allowed after submission (docstatus = 1)."
  else
    match apply_rows db doc.entries with
    | Except.error e => Except.error e
    | Except.ok (db2, updated) =>
      Except.ok (db2, { doc with status := "GL Updated" },
        comments ++ [applyComment updated], updated)

/- restore_gl_entry_originals (gl_correction.py lines 497-531) as the per-entry
   update: account and cost_center are restored only when the snapshot value is
   truthy; the six amount fields are restored unconditionally (the hasattr guards of
   the source always hold on the modelled child row, whose snapshot columns exist). -/
def restore_gl_entry_originals (row : GLCorrectionLine) (g : GLEntry) : GLEntry :=
  { g with
    account := if row.original_account ≠ "" then row.original_account else g.account,
    cost_center :=
      if row.original_cost_center ≠ "" then row.original_cost_center else g.cost_center,
    debit := row.original_debit,
    credit := row.original_credit,
    debit_in_account_currency := row.original_debit_in_account_currency,
    credit_in_account_currency := row.original_credit_in_account_currency,
    debit_in_transaction_currency := row.original_debit_in_transaction_currency,
    credit_in_transaction_currency := row.original_credit_in_transaction_currency }

/- The database effect of a loop that, for each child row with a non-empty
   reference_gl_entry, rewrites the GL Entry named by it with the per-row function f.
   This is the shape of the loops in apply_gl_updates and rollback_gl_updates. -/
def foldRowsDB (f : GLCorrectionLine → GLEntry → GLEntry)
    (db : List GLEntry) (rows : List GLCorrectionLine) : List GLEntry :=
  rows.foldl (fun db row =>
    if row.reference_gl_entry = "" then db
    else db.map (fun g => if g.name = row.reference_gl_entry then f row g else g)) db

/- The same loop seen from a single database row. -/
def foldRowsEntry (f : GLCorrectionLine → GLEntry → GLEntry)
    (rows : List GLCorrectionLine) (g : GLEntry) : GLEntry :=
  rows.foldl (fun g row =>
    if row.reference_gl_entry = "" then g
    else if g.name = row.reference_gl_entry then f row g else g) g

/- The reset of the child rows done inside the rollback loop: rows with a reference
   get their debit / credit set back to the snapshot. -/
def rollback_entries_reset (rows : List GLCorrectionLine) : List GLCorrectionLine :=
  rows.map (fun row =>
    if row.reference_gl_entry = "" then row
    else { row with debit := row.original_debit, credit := row.original_credit })

/- Audit comment written by rollback_gl_updates. -/
def rollbackComment (n : Nat) : String :=
  "Rollback executed. Restored " ++ toString n ++ " GL Entry row(s) to original values."

/- GLCorrection.rollback_gl_updates (gl_correction.py lines 313-360): only allowed on
   a submitted document; restores every referenced GL Entry from the snapshot, resets
   the child rows, recomputes totals, sets the status, saves and logs a comment.  The
   source loop carries three accumulators (the GL Entry writes, the reset child rows
   and the restored counter); the model computes the three components separately.
   The final self.save() runs on a submitted document (docstatus 1), so the framework
   takes its update-after-submit path, which does not run the validate hook (the
   source additionally sets flags.ignore_validate_update_after_submit to waive the
   allow-on-submit field check); the save is therefore a plain persist here. -/
def GLCorrection.rollback_gl_updates (db : List GLEntry) (doc : GLCorrection)
    (comments : List String) :
    Except String (List GLEntry × GLCorrection × List String × Nat) :=
  if doc.docstatus ≠ 1 then
    Except.error "Rollback is only allowed after submission."
  else
    let db2 := foldRowsDB restore_gl_entry_originals db doc.entries
    let restored := countRefs doc.entries
    let doc2 := ({ doc with entries := rollback_entries_reset doc.entries }
      : GLCorrection).update_totals
    Except.ok (db2, { doc2 with status := "Rolled Back" },
      comments ++ [rollbackComment restored], restored)

/- The frappe.get_all filter of fetch_gl_entries (gl_correction.py lines 92-114):
   non-cancelled GL Entries of the selected company / voucher_type / voucher_no.  The
   SQL order_by clause is abstracted away: the model keeps the database order, and no
   claim depends on the ordering. -/
def get_all_gl_entries (db : List GLEntry) (company voucher_type voucher_no : String) :
    List GLEntry :=
  db.filter (fun g =>
    g.company == company && g.voucher_type == voucher_type &&
    g.voucher_no == voucher_no && !g.is_cancelled)

/- One appended child row of fetch_gl_entries (gl_correction.py lines 125-147):
   editable fields plus the original_* snapshot, both taken from the fetched row. -/
def mk_entry_row (gle : GLEntry) : GLCorrectionLine :=
  { account := gle.account,
    party_type := gle.party_type,
    party := gle.party,
    cost_center := gle.cost_center,
    debit := gle.debit,
    credit := gle.credit,
    reference_gl_entry := gle.name,
    original_account := gle.account,
    original_cost_center := gle.cost_center,
    original_debit := gle.debit,
    original_credit := gle.credit,
    original_debit_in_account_currency := gle.debit_in_account_currency,
    original_credit_in_account_currency := gle.credit_in_account_currency,
    original_debit_in_transaction_currency := gle.debit_in_transaction_currency,
    original_credit_in_transaction_currency := gle.credit_in_transaction_currency }

/- GLCorrection.fetch_gl_entries (gl_correction.py lines 73-163): draft only, all
   three filter fields required, at least one matching GL Entry required; replaces the
   entries table, recomputes totals and saves (the save re-runs validate), then
   returns the count and totals. -/
def GLCorrection.fetch_gl_entries (db : List GLEntry) (doc : GLCorrection) :
    Except String (GLCorrection × FetchResult) :=
  if doc.docstatus ≠ 0 then
    Except.error "You can only fetch GL Entries while the document is in Draft."
  else if doc.company = "" ∨ doc.voucher_type = "" ∨ doc.voucher_no = "" then
    Except.error "Please set Company, Voucher Type and Voucher No first."
  else
    let gl_entries := get_all_gl_entries db doc.company doc.voucher_type doc.voucher_no
    if gl_entries = [] then
      Except.error "No GL Entries found for this voucher."
    else
      match ({ doc with entries := gl_entries.map mk_entry_row } : GLCorrection).validate with
      | Except.error e => Except.error e
      | Except.ok doc2 =>
        Except.ok (doc2,
          { count := gl_entries.length,
            total_debit := doc2.total_debit,
            total_credit := doc2.total_credit })

/- Audit comment of repost_valuation when the Repost Item Valuation DocType is
   missing. -/
def rivMissingMsg : String :=
  "Repost Item Valuation DocType is not available in this system. GL entries are updated, but stock valuation must be adjusted manually or by enabling this tool."

/- Warning comment of repost_valuation for non stock vouchers. -/
def rivWarnMsg (voucher_type : String) : String :=
  "Repost Item Valuation is normally used for stock-related vouchers. Current Voucher Type: " ++ voucher_type

/- Audit comment of repost_valuation naming the created document.  The source also
   interpolates a timestamp from now(), which the model drops. -/
def rivCreatedMsg (name voucher_type voucher_no : String) : String :=
  "Repost Item Valuation " ++ name ++ " created and submitted for " ++ voucher_type ++ " " ++ voucher_no ++ "."

/- GLCorrection.repost_valuation (gl_correction.py lines 362-427).  The existence of
   the Repost Item Valuation DocType and the name the framework assigns on insert are
   environment inputs and are passed as parameters.  posting_date handling on the
   created document is framework metadata and is not modelled. -/
def GLCorrection.repost_valuation (riv_doctype_present : Bool) (fresh_name : String)
    (doc : GLCorrection) (comments : List String) :
    Except String (Option RepostItemValuation × List String × RepostResult) :=
  if doc.docstatus ≠ 1 then
    Except.error "Please submit this GL Correction before reposting valuation."
  else if doc.company = "" ∨ doc.voucher_type = "" ∨ doc.voucher_no = "" then
    Except.error "Please set Company, Voucher Type and Voucher No first."
  else if riv_doctype_present = false then
    Except.ok (none, comments ++ [rivMissingMsg], { created := 0, repost_name := none })
  else
    let comments :=
      if doc.voucher_type = "Purchase Receipt" ∨ doc.voucher_type = "Stock Entry" ∨
          doc.voucher_type = "Purchase Invoice" ∨ doc.voucher_type = "Sales Invoice" then
        comments
      else comments ++ [rivWarnMsg doc.voucher_type]
    let riv : RepostItemValuation :=
      { name := fresh_name, company := doc.company,
        voucher_type := doc.voucher_type, voucher_no := doc.voucher_no }
    Except.ok (some riv, comments ++ [rivCreatedMsg fresh_name doc.voucher_type doc.voucher_no],
      { created := 1, repost_name := some fresh_name })

/- The Stock Valuation Fix document (stock_valuation_fix.py). -/
structure StockValuationFix where
  docstatus : Nat := 0
  company : String := ""
  item_code : String := ""
  warehouse : String := ""
  posting_date : String := ""
  qty_on_hand : Rat := 0
  current_valuation_rate : Rat := 0
  target_valuation_rate : Rat := 0
  current_total_value : Rat := 0
  target_total_value : Rat := 0
  difference_value : Rat := 0
  source_voucher_type : String := ""
  source_voucher_no : String := ""
  source_row_name : String := ""
  source_current_rate : Rat := 0
  status : String := ""
deriving DecidableEq, Repr

/- StockValuationFix.update_totals (stock_valuation_fix.py lines 44-57). -/
def StockValuationFix.update_totals (doc : StockValuationFix) : StockValuationFix :=
  let qty := doc.qty_on_hand
  let cur_rate := doc.current_valuation_rate
  let tgt_rate := doc.target_valuation_rate
  let current_total_value := if qty ≠ 0 ∧ cur_rate ≠ 0 then qty * cur_rate else 0
  if qty ≠ 0 ∧ tgt_rate ≠ 0 then
    { doc with
      current_total_value := current_total_value,
      target_total_value := qty * tgt_rate,
      difference_value := qty * tgt_rate - current_total_value }
  else
    { doc with
      current_total_value := current_total_value,
      target_total_value := 0,
      difference_value := 0 }

/- One Purchase Receipt Item row.  The fields that update_source_entry writes only
   after a hasattr test are modelled as Option values: a present field is updated, a
   missing one stays missing. -/
structure PurchaseReceiptItem where
  name : String := ""
  item_code : String := ""
  warehouse : String := ""
  qty : Rat := 0
  rate : Rat := 0
  valuation_rate : Option Rat := none
  amount : Option Rat := none
  base_rate : Option Rat := none
  base_amount : Option Rat := none
  net_rate : Option Rat := none
  net_amount : Option Rat := none
  base_net_rate : Option Rat := none
  base_net_amount : Option Rat := none
deriving DecidableEq, Repr

/- A Purchase Receipt with its item rows.  conversion_rate is optional because the
   source reads it with pr.get(...). -/
structure PurchaseReceipt where
  name : String := ""
  conversion_rate : Option Rat := none
  items : List PurchaseReceiptItem := []
deriving DecidableEq, Repr

/- Result dictionary of update_source_entry. -/
structure UpdateSourceResult where
  updated : Nat := 0
  rows : List String := []
  new_rate : Rat := 0
deriving DecidableEq, Repr

/- flt(pr.get("conversion_rate") or 1): a missing or zero conversion rate falls back
   to 1. -/
def prConversionRate (pr : PurchaseReceipt) : Rat :=
  match pr.conversion_rate with
  | some c => if c ≠ 0 then c else 1
  | none => 1

/- Row matching used when source_row_name is empty (stock_valuation_fix.py lines
   294-298): same item_code, and an empty or matching warehouse. -/
def pr_row_matches (doc : StockValuationFix) (r : PurchaseReceiptItem) : Bool :=
  r.item_code == doc.item_code && (r.warehouse == "" || r.warehouse == doc.warehouse)

/- The skip tolerance of update_source_entry: a row is left alone when its rate is
   already within 0.0000001 of the target. -/
def svfEps : Rat := 1 / 10000000

/- The skip test (stock_valuation_fix.py line 318). -/
def rate_within_tolerance (old_rate new_rate : Rat) : Bool :=
  decide (ratAbs (old_rate - new_rate) < svfEps)

/- Selection of the rows to update (stock_valuation_fix.py lines 280-307): the single
   row named by source_row_name when it is set (throwing when absent), otherwise all
   matching rows (throwing when none match). -/
def selected_rows (doc : StockValuationFix) (pr : PurchaseReceipt) :
    Except String (List PurchaseReceiptItem) :=
  if doc.source_row_name ≠ "" then
    match pr.items.find? (fun r => r.name == doc.source_row_name) with
    | some r => Except.ok [r]
    | none => Except.error "Source Row Name not found in Purchase Receipt."
  else
    let sel := pr.items.filter (pr_row_matches doc)
    if sel = [] then Except.error "No matching Purchase Receipt Item found."
    else Except.ok sel

/- The field writes of one updated Purchase Receipt Item (stock_valuation_fix.py
   lines 321-343). -/
def update_pr_item (row : PurchaseReceiptItem) (new_rate conversion_rate : Rat) :
    PurchaseReceiptItem :=
  { row with
    rate := new_rate,
    valuation_rate := row.valuation_rate.map (fun _ => new_rate),
    amount := row.amount.map (fun _ => row.qty * new_rate),
    base_rate := row.base_rate.map (fun _ => new_rate * conversion_rate),
    base_amount := row.base_amount.map (fun _ => row.qty * new_rate * conversion_rate),
    net_rate := row.net_rate.map (fun _ => new_rate),
    net_amount := row.net_amount.map (fun _ => row.qty * new_rate),
    base_net_rate := row.base_net_rate.map (fun _ => new_rate * conversion_rate),
    base_net_amount := row.base_net_amount.map (fun _ => row.qty * new_rate * conversion_rate) }

/- StockValuationFix.update_source_entry (stock_valuation_fix.py lines 246-404).
   The Purchase Receipt store is a list keyed by name.  The framework-side
   calculate_taxes_and_totals call is wrapped in try/except in the source and has no
   effect on the fields any claim mentions, so it is not modelled; audit comments are
   likewise not tracked for this method. -/
def StockValuationFix.update_source_entry (prs : List PurchaseReceipt)
    (doc : StockValuationFix) :
    Except String (List PurchaseReceipt × StockValuationFix × UpdateSourceResult) :=
  if doc.docstatus ≠ 1 then
    Except.error "Please submit this Stock Valuation Fix before updating source entry."
  else if doc.target_valuation_rate = 0 then
    Except.error "Please set Target Valuation Rate before updating source entry."
  else if doc.source_voucher_type = "" ∨ doc.source_voucher_no = "" then
    Except.error "Please set Source Voucher Type and Source Voucher No."
  else if doc.source_voucher_type ≠ "Purchase Receipt" then
    Except.error "Update Source Entry Rate currently supports only Purchase Receipt."
  else
    match prs.find? (fun p => p.name == doc.source_voucher_no) with
    | none => Except.error "Purchase Receipt not found"
    | some pr =>
      let new_rate := doc.target_valuation_rate
      let conversion_rate := prConversionRate pr
      match selected_rows doc pr with
      | Except.error e => Except.error e
      | Except.ok rows_to_update =>
        let updated_rows := rows_to_update.filter (fun r => !rate_within_tolerance r.rate new_rate)
        if updated_rows = [] then
          Except.ok (prs, doc, { updated := 0, rows := [], new_rate := new_rate })
        else
          let names := updated_rows.map (fun r => r.name)
          let pr2 := { pr with items := pr.items.map (fun r =>
            if names.contains r.name then update_pr_item r new_rate conversion_rate else r) }
          let prs2 := prs.map (fun p => if p.name = pr.name then pr2 else p)
          let doc2 :=
            match rows_to_update.head? with
            | some r0 => { doc with source_current_rate := r0.rate }
            | none => doc
          Except.ok (prs2, doc2,
            { updated := updated_rows.length, rows := names, new_rate := new_rate })

/- Pairwise distinctness of the non-empty reference_gl_entry values of a list of
   child rows: the shape fetch_gl_entries produces (one row per GL Entry). -/
def nodupRefs (rows : List GLCorrectionLine) : Prop :=
  rows.Pairwise (fun a b =>
    a.reference_gl_entry = "" ∨ b.reference_gl_entry = "" ∨
    a.reference_gl_entry ≠ b.reference_gl_entry)

/- Concrete inputs used by the witness and counterexample theorems below. -/

/- A GL Entry with nonzero debit and credit, for the rescaling witness. -/
def g1w : GLEntry :=
  { name := "G1", debit := 10, credit := 4,
    debit_in_account_currency := 20, debit_in_transaction_currency := 30,
    credit_in_account_currency := 8, credit_in_transaction_currency := 12 }

/- A GL Entry whose debit, credit and account-currency amounts are all zero but whose
   transaction-currency amounts are not. -/
def g10cx : GLEntry :=
  { name := "G1", debit := 0, credit := 0,
    debit_in_account_currency := 0, debit_in_transaction_currency := 4,
    credit_in_account_currency := 0, credit_in_transaction_currency := 6 }

/- A GL Entry with zero debit and credit but a nonzero account-currency debit. -/
def g10w : GLEntry :=
  { name := "G1", debit := 0, credit := 0,
    debit_in_account_currency := 3, debit_in_transaction_currency := 4,
    credit_in_account_currency := 0, credit_in_transaction_currency := 6 }

/- A balanced one-row draft GL Correction. -/
def doc9w : GLCorrection :=
  { docstatus := 0, entries := [{ debit := 5, credit := 5 }] }

/- A Stock Valuation Fix with nonzero quantity and both rates set. -/
def svf5w : StockValuationFix :=
  { qty_on_hand := 2, current_valuation_rate := 3, target_valuation_rate := 5 }

/- A stored GL Entry whose account differs from the (empty) account of the child row
   below. -/
def g2cx : GLEntry :=
  { name := "G1", account := "ACC-X", debit := 10,
    debit_in_account_currency := 10, debit_in_transaction_currency := 10 }

/- A child row with an empty account referencing g2cx. -/
def row2cx : GLCorrectionLine :=
  { account := "", debit := 10, credit := 0, reference_gl_entry := "G1" }

/- A submitted GL Correction holding row2cx. -/
def doc2cx : GLCorrection := { docstatus := 1, entries := [row2cx] }

/- A stored GL Entry for the apply witness. -/
def g2w : GLEntry :=
  { name := "G1", account := "A1", cost_center := "CC1", debit := 10,
    debit_in_account_currency := 10, debit_in_transaction_currency := 10 }

/- A child row changing the debit and the account of g2w. -/
def row2w : GLCorrectionLine :=
  { account := "A2", cost_center := "CC1", debit := 5, credit := 0,
    reference_gl_entry := "G1" }

/- A submitted GL Correction holding row2w. -/
def doc2w : GLCorrection := { docstatus := 1, entries := [row2w] }

/- A stored GL Entry for the rollback witness. -/
def g8w : GLEntry :=
  { name := "G1", account := "A2", cost_center := "CC2", debit := 7, credit := 3,
    debit_in_account_currency := 7, credit_in_account_currency := 3 }

/- A child row with a balanced original_* snapshot and a non-empty original
   account. -/
def row8w : GLCorrectionLine :=
  { debit := 7, credit := 3, reference_gl_entry := "G1",
    original_account := "A1", original_cost_center := "",
    original_debit := 5, original_credit := 5,
    original_debit_in_account_currency := 5, original_credit_in_account_currency := 5,
    original_debit_in_transaction_currency := 5,
    original_credit_in_transaction_currency := 5 }

/- A submitted GL Correction holding row8w. -/
def doc8w : GLCorrection := { docstatus := 1, entries := [row8w] }

/- A single unbalanced GL Entry matching the fetch filter of doc3cx. -/
def g3cx : GLEntry :=
  { name := "G1", company := "C", voucher_type := "Journal Entry",
    voucher_no := "JV-1", debit := 100 }

/- A draft GL Correction whose voucher matches g3cx. -/
def doc3cx : GLCorrection :=
  { docstatus := 0, company := "C", voucher_type := "Journal Entry",
    voucher_no := "JV-1" }

/- Two balanced GL Entries of voucher JV-1 and one entry of another voucher. -/
def g3a : GLEntry :=
  { name := "G1", company := "C", voucher_type := "Journal Entry",
    voucher_no := "JV-1", account := "A1", cost_center := "CC1", debit := 100,
    debit_in_account_currency := 100, debit_in_transaction_currency := 100 }

def g3b : GLEntry :=
  { name := "G2", company := "C", voucher_type := "Journal Entry",
    voucher_no := "JV-1", account := "A2", credit := 100,
    credit_in_account_currency := 100 }

def g3c : GLEntry :=
  { name := "G3", company := "C", voucher_type := "Journal Entry",
    voucher_no := "JV-2", debit := 50 }

/- A draft GL Correction whose voucher matches g3a and g3b but not g3c. -/
def doc3w : GLCorrection :=
  { docstatus := 0, company := "C", voucher_type := "Journal Entry",
    voucher_no := "JV-1" }

/- A submitted GL Correction with an empty company. -/
def doc6cx : GLCorrection :=
  { docstatus := 1, company := "", voucher_type := "Journal Entry",
    voucher_no := "JV-1" }

/- A submitted GL Correction with all repost fields set (non stock voucher). -/
def doc6w : GLCorrection :=
  { docstatus := 1, company := "C", voucher_type := "Journal Entry",
    voucher_no := "JV-1" }

/- A Purchase Receipt Item matching the Stock Valuation Fix below. -/
def pritem7a : PurchaseReceiptItem :=
  { name := "R1", item_code := "ITM", warehouse := "WH", qty := 2, rate := 3,
    valuation_rate := some 3, amount := some 6, base_rate := some 6,
    base_amount := some 12, net_rate := some 3, net_amount := some 6,
    base_net_rate := some 6, base_net_amount := some 12 }

/- A Purchase Receipt Item of another item code. -/
def pritem7b : PurchaseReceiptItem :=
  { name := "R2", item_code := "OTHER", warehouse := "WH", qty := 1, rate := 9 }

/- A Purchase Receipt with conversion rate 2 holding both items. -/
def pr7 : PurchaseReceipt :=
  { name := "PR-1", conversion_rate := some 2, items := [pritem7a, pritem7b] }

/- A submitted Stock Valuation Fix targeting rate 5 on PR-1 without a source row
   name. -/
def svf7w : StockValuationFix :=
  { docstatus := 1, item_code := "ITM", warehouse := "WH",
    target_valuation_rate := 5, source_voucher_type := "Purchase Receipt",
    source_voucher_no := "PR-1", source_row_name := "" }

/- Helper lemmas. -/

theorem ratAbs_eq_abs (x : Rat) : ratAbs x = |x| := by
  unfold ratAbs
  rcases lt_or_le x 0 with h | h
  · rw [if_pos h, abs_of_neg h]
  · rw [if_neg (not_lt.mpr h), abs_of_nonneg h]

theorem foldl_add_debit (l : List GLCorrectionLine) (a : Rat) :
    l.foldl (fun acc row => acc + row.debit) a = a + (l.map (fun r => r.debit)).sum := by
  induction l generalizing a with
  | nil => simp
  | cons r t ih => simp [ih]; ring

theorem foldl_add_credit (l : List GLCorrectionLine) (a : Rat) :
    l.foldl (fun acc row => acc + row.credit) a = a + (l.map (fun r => r.credit)).sum := by
  induction l generalizing a with
  | nil => simp
  | cons r t ih => simp [ih]; ring

theorem update_totals_total_debit (doc : GLCorrection) :
    (doc.update_totals).total_debit = (doc.entries.map (fun r => r.debit)).sum := by
  simp [GLCorrection.update_totals, foldl_add_debit]

theorem update_totals_total_credit (doc : GLCorrection) :
    (doc.update_totals).total_credit = (doc.entries.map (fun r => r.credit)).sum := by
  simp [GLCorrection.update_totals, foldl_add_credit]

theorem update_totals_difference (doc : GLCorrection) :
    (doc.update_totals).difference =
      (doc.update_totals).total_debit - (doc.update_totals).total_credit := rfl

theorem update_totals_entries (doc : GLCorrection) :
    (doc.update_totals).entries = doc.entries := rfl

theorem update_gl_entry_amounts_core_name (g : GLEntry) (nd nc : Rat) :
    (update_gl_entry_amounts_core g nd nc).name = g.name := rfl

theorem apply_row_core_name (row : GLCorrectionLine) (g : GLEntry) :
    (apply_row_core row g).name = g.name := rfl

theorem restore_gl_entry_originals_name (row : GLCorrectionLine) (g : GLEntry) :
    (restore_gl_entry_originals row g).name = g.name := rfl

theorem find_name_map {α : Type} (nm : α → String) (F : α → α)
    (hF : ∀ a, nm (F a) = nm a) (l : List α) (t : String) :
    (l.map F).find? (fun a => nm a == t) = (l.find? (fun a => nm a == t)).map F := by
  induction l with
  | nil => rfl
  | cons a l ih =>
    simp only [List.map_cons, List.find?_cons, hF]
    cases h : (nm a == t) <;> simp [ih]

/- Theorems for the claims. -/

/-- C4: for every GL Correction document and every entries list (including the empty
one), update_totals sets total_debit to the sum of the rows' debit values,
total_credit to the sum of the rows' credit values, and difference to total_debit
minus total_credit. -/
theorem gl_update_totals_sums (doc : GLCorrection) :
    (doc.update_totals).total_debit = (doc.entries.map (fun r => r.debit)).sum ∧
    (doc.update_totals).total_credit = (doc.entries.map (fun r => r.credit)).sum ∧
    (doc.update_totals).difference =
      (doc.update_totals).total_debit - (doc.update_totals).total_credit :=
  ⟨update_totals_total_debit doc, update_totals_total_credit doc,
    update_totals_difference doc⟩

/-- C9: validate_totals succeeds exactly when the entries table is non-empty and the
absolute difference is at most 0.0001, so every GL Correction that passes validate
(run on every save and submit) has at least one entries row and
total_debit - total_credit within 0.0001 in absolute value. -/
theorem gl_validate_totals_balanced (doc : GLCorrection) :
    (doc.validate_totals = Except.ok () ↔
      doc.entries ≠ [] ∧ |doc.difference| ≤ 1 / 10000) ∧
    (∀ doc2, doc.validate = Except.ok doc2 →
      doc2.entries ≠ [] ∧ |doc2.total_debit - doc2.total_credit| ≤ 1 / 10000) := by
  have h1 : ∀ d : GLCorrection, (d.validate_totals = Except.ok () ↔
      d.entries ≠ [] ∧ |d.difference| ≤ 1 / 10000) := by
    intro d
    unfold GLCorrection.validate_totals
    split_ifs with he hd
    · constructor
      · intro h; exact absurd h (by simp)
      · intro h; exact absurd he h.1
    · constructor
      · intro h; exact absurd h (by simp)
      · intro h; exact absurd hd (not_lt.mpr (by rw [ratAbs_eq_abs]; exact h.2))
    · constructor
      · intro _; exact ⟨he, by rw [← ratAbs_eq_abs]; exact not_lt.mp hd⟩
      · intro _; rfl
  refine ⟨h1 doc, ?_⟩
  intro doc2 h
  unfold GLCorrection.validate at h
  revert h
  cases hv : (doc.update_totals).validate_totals with
  | error e => intro h; exact absurd h (by simp)
  | ok u =>
    intro h
    have hd : doc2 = doc.update_totals := by
      simpa using h.symm
    subst hd
    have := (h1 doc.update_totals).mp hv
    exact ⟨this.1, by rw [← update_totals_difference doc]; exact this.2⟩

/-- C9 witness: a balanced one-row draft passes validate, and the validated document
has a non-empty entries table and balanced totals. -/
theorem gl_validate_totals_balanced_witness :
    doc9w.validate = Except.ok doc9w.update_totals ∧
    (doc9w.update_totals).entries ≠ [] ∧
    |(doc9w.update_totals).total_debit - (doc9w.update_totals).total_credit| ≤ 1 / 10000 :=
  ⟨by decide, (gl_validate_totals_balanced doc9w).2 doc9w.update_totals (by decide)⟩

/-- C5: for every Stock Valuation Fix, update_totals sets current_total_value to
qty_on_hand times current_valuation_rate when both are nonzero and to 0 otherwise;
when qty_on_hand and target_valuation_rate are both nonzero it sets target_total_value
to qty_on_hand times target_valuation_rate and difference_value to target_total_value
minus current_total_value, and otherwise it sets both to 0. -/
theorem svf_update_totals_values (doc : StockValuationFix) :
    (doc.update_totals).current_total_value =
      (if doc.qty_on_hand ≠ 0 ∧ doc.current_valuation_rate ≠ 0 then
        doc.qty_on_hand * doc.current_valuation_rate else 0) ∧
    (doc.qty_on_hand ≠ 0 ∧ doc.target_valuation_rate ≠ 0 →
      (doc.update_totals).target_total_value =
        doc.qty_on_hand * doc.target_valuation_rate ∧
      (doc.update_totals).difference_value =
        (doc.update_totals).target_total_value - (doc.update_totals).current_total_value) ∧
    (¬(doc.qty_on_hand ≠ 0 ∧ doc.target_valuation_rate ≠ 0) →
      (doc.update_totals).target_total_value = 0 ∧
      (doc.update_totals).difference_value = 0) := by
  by_cases h : doc.qty_on_hand ≠ 0 ∧ doc.target_valuation_rate ≠ 0 <;>
    simp [StockValuationFix.update_totals, h]

/-- C5 witness: with quantity 2, current rate 3 and target rate 5 the totals are
computed as claimed. -/
theorem svf_update_totals_values_witness :
    (svf5w.update_totals).current_total_value =
      (if svf5w.qty_on_hand ≠ 0 ∧ svf5w.current_valuation_rate ≠ 0 then
        svf5w.qty_on_hand * svf5w.current_valuation_rate else 0) ∧
    (svf5w.update_totals).target_total_value =
      svf5w.qty_on_hand * svf5w.target_valuation_rate ∧
    (svf5w.update_totals).difference_value =
      (svf5w.update_totals).target_total_value - (svf5w.update_totals).current_total_value :=
  ⟨(svf_update_totals_values svf5w).1, (svf_update_totals_values svf5w).2.1 (by decide)⟩

/-- C1: update_gl_entry_amounts on a GL Entry with nonzero old debit rescales
debit_in_account_currency and debit_in_transaction_currency by new_debit / old_debit,
and with nonzero old credit rescales credit_in_account_currency and
credit_in_transaction_currency by new_credit / old_credit. -/
theorem update_gl_entry_amounts_rescales (db : List GLEntry) (gl_entry_name : String)
    (nd nc : Rat) (g : GLEntry)
    (hfind : db.find? (fun e => e.name == gl_entry_name) = some g) :
    ∃ db2, update_gl_entry_amounts db gl_entry_name nd nc = Except.ok db2 ∧
      db2.find? (fun e => e.name == gl_entry_name) =
        some (update_gl_entry_amounts_core g nd nc) ∧
      (g.debit ≠ 0 →
        (update_gl_entry_amounts_core g nd nc).debit_in_account_currency =
          g.debit_in_account_currency * (nd / g.debit) ∧
        (update_gl_entry_amounts_core g nd nc).debit_in_transaction_currency =
          g.debit_in_transaction_currency * (nd / g.debit)) ∧
      (g.credit ≠ 0 →
        (update_gl_entry_amounts_core g nd nc).credit_in_account_currency =
          g.credit_in_account_currency * (nc / g.credit) ∧
        (update_gl_entry_amounts_core g nd nc).credit_in_transaction_currency =
          g.credit_in_transaction_currency * (nc / g.credit)) := by
  have hname : g.name = gl_entry_name := by
    have := List.find?_some hfind
    simpa [beq_iff_eq] using this
  refine ⟨db.map (fun e =>
    if e.name = gl_entry_name then update_gl_entry_amounts_core e nd nc else e), ?_, ?_, ?_, ?_⟩
  · unfold update_gl_entry_amounts
    rw [hfind]
  · rw [find_name_map (fun e => e.name)
      (fun e => if e.name = gl_entry_name then update_gl_entry_amounts_core e nd nc else e)
      (by intro a
          by_cases h : a.name = gl_entry_name <;>
            simp [h, update_gl_entry_amounts_core_name]) db gl_entry_name]
    rw [hfind]
    simp [hname]
  · intro h
    constructor <;> simp [update_gl_entry_amounts_core, h]
  · intro h
    constructor <;> simp [update_gl_entry_amounts_core, h]

/-- C1 witness: a GL Entry with debit 10 and credit 4 rescaled to debit 5 and
credit 2 halves both debit currency amounts and both credit currency amounts. -/
theorem update_gl_entry_amounts_rescales_witness :
    g1w.debit ≠ 0 ∧ g1w.credit ≠ 0 ∧
    (update_gl_entry_amounts_core g1w 5 2).debit_in_account_currency =
      g1w.debit_in_account_currency * (5 / g1w.debit) ∧
    (update_gl_entry_amounts_core g1w 5 2).debit_in_transaction_currency =
      g1w.debit_in_transaction_currency * (5 / g1w.debit) ∧
    (update_gl_entry_amounts_core g1w 5 2).credit_in_account_currency =
      g1w.credit_in_account_currency * (2 / g1w.credit) ∧
    (update_gl_entry_amounts_core g1w 5 2).credit_in_transaction_currency =
      g1w.credit_in_transaction_currency * (2 / g1w.credit) := by
  obtain ⟨db2, hok, hfind, hd, hc⟩ :=
    update_gl_entry_amounts_rescales [g1w] "G1" 5 2 g1w (by decide)
  obtain ⟨hd1, hd2⟩ := hd (by decide)
  obtain ⟨hc1, hc2⟩ := hc (by decide)
  exact ⟨by decide, by decide, hd1, hd2, hc1, hc2⟩

/-- C10 counterexample: on a GL Entry whose old debit and old account-currency debit
are both zero, update_gl_entry_amounts with new debit 5 leaves
debit_in_account_currency at 0 instead of setting it to the new debit as the claim
states. -/
theorem update_gl_entry_amounts_zero_old_debit_counterexample :
    g10cx.debit = 0 ∧ (5 : Rat) ≠ 0 ∧
    (update_gl_entry_amounts_core g10cx 5 0).debit_in_account_currency ≠ 5 ∧
    (update_gl_entry_amounts_core g10cx 5 0).debit_in_account_currency = 0 := by
  decide

/-- C10 amended: when the old debit is zero and the new debit is nonzero,
update_gl_entry_amounts sets debit_in_account_currency to the new debit only when the
stored debit_in_account_currency is nonzero (leaving it unchanged otherwise), and
always leaves debit_in_transaction_currency at its previous stored value; the
symmetric statement holds for the credit fields. -/
theorem update_gl_entry_amounts_zero_old_debit (gle : GLEntry) (nd nc : Rat) :
    (gle.debit = 0 → nd ≠ 0 →
      (update_gl_entry_amounts_core gle nd nc).debit_in_account_currency =
        (if gle.debit_in_account_currency ≠ 0 then nd
         else gle.debit_in_account_currency) ∧
      (update_gl_entry_amounts_core gle nd nc).debit_in_transaction_currency =
        gle.debit_in_transaction_currency) ∧
    (gle.credit = 0 → nc ≠ 0 →
      (update_gl_entry_amounts_core gle nd nc).credit_in_account_currency =
        (if gle.credit_in_account_currency ≠ 0 then nc
         else gle.credit_in_account_currency) ∧
      (update_gl_entry_amounts_core gle nd nc).credit_in_transaction_currency =
        gle.credit_in_transaction_currency) := by
  constructor
  · intro h hnd
    constructor
    · by_cases hacc : gle.debit_in_account_currency = 0 <;>
        simp [update_gl_entry_amounts_core, h, hnd, hacc]
    · by_cases htrn : gle.debit_in_transaction_currency = 0 <;>
        simp [update_gl_entry_amounts_core, h, hnd, htrn]
  · intro h hnc
    constructor
    · by_cases hacc : gle.credit_in_account_currency = 0 <;>
        simp [update_gl_entry_amounts_core, h, hnc, hacc]
    · by_cases htrn : gle.credit_in_transaction_currency = 0 <;>
        simp [update_gl_entry_amounts_core, h, hnc, htrn]

/-- C10 amended witness: with old debit 0, account-currency debit 3 and
transaction-currency debit 4, a new debit of 5 sets the account-currency debit to 5
and keeps the transaction-currency debit at 4; with old credit 0 and account-currency
credit 0, a new credit of 7 keeps both credit currency amounts unchanged. -/
theorem update_gl_entry_amounts_zero_old_debit_witness :
    g10w.debit = 0 ∧ (5 : Rat) ≠ 0 ∧ g10w.credit = 0 ∧ (7 : Rat) ≠ 0 ∧
    ((update_gl_entry_amounts_core g10w 5 7).debit_in_account_currency =
      (if g10w.debit_in_account_currency ≠ 0 then 5
       else g10w.debit_in_account_currency) ∧
     (update_gl_entry_amounts_core g10w 5 7).debit_in_transaction_currency =
      g10w.debit_in_transaction_currency) ∧
    ((update_gl_entry_amounts_core g10w 5 7).credit_in_account_currency =
      (if g10w.credit_in_account_currency ≠ 0 then 7
       else g10w.credit_in_account_currency) ∧
     (update_gl_entry_amounts_core g10w 5 7).credit_in_transaction_currency =
      g10w.credit_in_transaction_currency) :=
  ⟨by decide, by decide, by decide, by decide,
    (update_gl_entry_amounts_zero_old_debit g10w 5 7).1 (by decide) (by decide),
    (update_gl_entry_amounts_zero_old_debit g10w 5 7).2 (by decide) (by decide)⟩

/- Machinery for the apply and rollback loops. -/

theorem foldRowsDB_eq_map (f : GLCorrectionLine → GLEntry → GLEntry)
    (db : List GLEntry) (rows : List GLCorrectionLine) :
    foldRowsDB f db rows = db.map (foldRowsEntry f rows) := by
  induction rows generalizing db with
  | nil =>
    show db = db.map (fun g => g)
    exact (List.map_id' db).symm
  | cons r rs ih =>
    have h1 : foldRowsDB f db (r :: rs) =
        foldRowsDB f (if r.reference_gl_entry = "" then db
          else db.map (fun g => if g.name = r.reference_gl_entry then f r g else g)) rs := rfl
    have h2 : ∀ g : GLEntry, foldRowsEntry f (r :: rs) g =
        foldRowsEntry f rs (if r.reference_gl_entry = "" then g
          else if g.name = r.reference_gl_entry then f r g else g) := fun g => rfl
    rw [h1]
    by_cases h : r.reference_gl_entry = ""
    · rw [if_pos h, ih]
      congr 1
      funext g
      rw [h2 g, if_pos h]
    · rw [if_neg h, ih, List.map_map]
      congr 1
      funext g
      rw [Function.comp_apply, h2 g, if_neg h]

theorem foldRowsEntry_name (f : GLCorrectionLine → GLEntry → GLEntry)
    (hf : ∀ r g, (f r g).name = g.name) (rows : List GLCorrectionLine) :
    ∀ g, (foldRowsEntry f rows g).name = g.name := by
  induction rows with
  | nil => intro g; rfl
  | cons r rs ih =>
    intro g
    have h2 : foldRowsEntry f (r :: rs) g =
        foldRowsEntry f rs (if r.reference_gl_entry = "" then g
          else if g.name = r.reference_gl_entry then f r g else g) := rfl
    rw [h2, ih]
    split_ifs <;> simp [hf]

theorem foldRowsEntry_skip (f : GLCorrectionLine → GLEntry → GLEntry)
    (rows : List GLCorrectionLine) (g : GLEntry)
    (h : ∀ r ∈ rows, r.reference_gl_entry ≠ g.name) :
    foldRowsEntry f rows g = g := by
  induction rows with
  | nil => rfl
  | cons r rs ih =>
    have hr := h r (List.mem_cons_self r rs)
    have h2 : foldRowsEntry f (r :: rs) g =
        foldRowsEntry f rs (if r.reference_gl_entry = "" then g
          else if g.name = r.reference_gl_entry then f r g else g) := rfl
    rw [h2]
    by_cases he : r.reference_gl_entry = ""
    · rw [if_pos he]
      exact ih (fun x hx => h x (List.mem_cons_of_mem r hx))
    · rw [if_neg he, if_neg (fun hn => hr hn.symm)]
      exact ih (fun x hx => h x (List.mem_cons_of_mem r hx))

theorem foldRowsEntry_single (f : GLCorrectionLine → GLEntry → GLEntry)
    (hf : ∀ r g, (f r g).name = g.name)
    (rows : List GLCorrectionLine) (row : GLCorrectionLine) (g : GLEntry)
    (hne : row.reference_gl_entry ≠ "") (hname : g.name = row.reference_gl_entry)
    (hnd : nodupRefs rows) (hmem : row ∈ rows) :
    foldRowsEntry f rows g = f row g := by
  revert hnd hmem
  induction rows with
  | nil => intro _ hmem; cases hmem
  | cons r rs ih =>
    intro hnd hmem
    rw [nodupRefs, List.pairwise_cons] at hnd
    obtain ⟨hhead, htail⟩ := hnd
    have h2 : foldRowsEntry f (r :: rs) g =
        foldRowsEntry f rs (if r.reference_gl_entry = "" then g
          else if g.name = r.reference_gl_entry then f r g else g) := rfl
    rw [h2]
    by_cases hr : g.name = r.reference_gl_entry
    · have hre : r.reference_gl_entry ≠ "" := by rw [← hr, hname]; exact hne
      have hrow : row = r := by
        rcases List.mem_cons.mp hmem with h1 | h1
        · exact h1
        · exfalso
          rcases hhead row h1 with hc | hc | hc
          · exact hre hc
          · exact hne hc
          · exact hc (by rw [← hr, hname])
      rw [if_neg hre, if_pos hr]
      have hskip : ∀ x ∈ rs, x.reference_gl_entry ≠ (f r g).name := by
        intro x hx
        rw [hf r g]
        rcases hhead x hx with hc | hc | hc
        · exact absurd hc hre
        · rw [hc]
          exact fun hcc => hne (hcc.trans hname).symm
        · exact fun hcc => hc (hcc.trans hr).symm
      rw [foldRowsEntry_skip f rs (f r g) hskip, hrow]
    · have hrow : row ∈ rs := by
        rcases List.mem_cons.mp hmem with h1 | h1
        · exact absurd (by rw [h1] at hname; exact hname) hr
        · exact h1
      by_cases he : r.reference_gl_entry = ""
      · rw [if_pos he]
        exact ih htail hrow
      · rw [if_neg he, if_neg hr]
        exact ih htail hrow

theorem foldRowsDB_find (f : GLCorrectionLine → GLEntry → GLEntry)
    (hf : ∀ r g, (f r g).name = g.name)
    (db : List GLEntry) (rows : List GLCorrectionLine)
    (row : GLCorrectionLine) (g : GLEntry)
    (hnd : nodupRefs rows) (hmem : row ∈ rows) (hne : row.reference_gl_entry ≠ "")
    (hfind : db.find? (fun e => e.name == row.reference_gl_entry) = some g) :
    (foldRowsDB f db rows).find? (fun e => e.name == row.reference_gl_entry) =
      some (f row g) := by
  have hname : g.name = row.reference_gl_entry := by
    simpa [beq_iff_eq] using List.find?_some hfind
  rw [foldRowsDB_eq_map,
    find_name_map (fun e => e.name) (foldRowsEntry f rows)
      (foldRowsEntry_name f hf rows) db row.reference_gl_entry,
    hfind]
  simp only [Option.map_some']
  rw [foldRowsEntry_single f hf rows row g hne hname hnd hmem]

theorem foldRowsDB_not_referenced (f : GLCorrectionLine → GLEntry → GLEntry)
    (db : List GLEntry) (rows : List GLCorrectionLine) (g : GLEntry) (hg : g ∈ db)
    (h : ∀ row ∈ rows, row.reference_gl_entry ≠ g.name) :
    g ∈ foldRowsDB f db rows := by
  rw [foldRowsDB_eq_map]
  have hfix : foldRowsEntry f rows g = g := foldRowsEntry_skip f rows g h
  exact hfix ▸ List.mem_map_of_mem (foldRowsEntry f rows) hg

/- Field lemmas about the per-row update functions. -/

theorem update_gl_entry_amounts_core_debit (g : GLEntry) (nd nc : Rat) :
    (update_gl_entry_amounts_core g nd nc).debit = nd := by
  by_cases h : g.debit ≠ 0 ∨ nd ≠ 0
  · simp [update_gl_entry_amounts_core, h]
  · push_neg at h
    simp [update_gl_entry_amounts_core, h.1, h.2]

theorem update_gl_entry_amounts_core_credit (g : GLEntry) (nd nc : Rat) :
    (update_gl_entry_amounts_core g nd nc).credit = nc := by
  by_cases h : g.credit ≠ 0 ∨ nc ≠ 0
  · simp [update_gl_entry_amounts_core, h]
  · push_neg at h
    simp [update_gl_entry_amounts_core, h.1, h.2]

theorem apply_row_core_debit (row : GLCorrectionLine) (g : GLEntry) :
    (apply_row_core row g).debit = row.debit :=
  update_gl_entry_amounts_core_debit g row.debit row.credit

theorem apply_row_core_credit (row : GLCorrectionLine) (g : GLEntry) :
    (apply_row_core row g).credit = row.credit :=
  update_gl_entry_amounts_core_credit g row.debit row.credit

theorem apply_row_core_account_eq (row : GLCorrectionLine) (g : GLEntry) :
    (apply_row_core row g).account =
      (if row.account ≠ "" ∧ g.account ≠ row.account then row.account else g.account) := rfl

theorem apply_row_core_cost_center_eq (row : GLCorrectionLine) (g : GLEntry) :
    (apply_row_core row g).cost_center =
      (if row.cost_center ≠ "" ∧ g.cost_center ≠ row.cost_center then row.cost_center
       else g.cost_center) := rfl

theorem apply_row_core_account_set (row : GLCorrectionLine) (g : GLEntry)
    (h : row.account ≠ "") : (apply_row_core row g).account = row.account := by
  rw [apply_row_core_account_eq]
  by_cases h2 : g.account = row.account
  · simp [h2]
  · simp [h, h2]

theorem apply_row_core_account_empty (row : GLCorrectionLine) (g : GLEntry)
    (h : row.account = "") : (apply_row_core row g).account = g.account := by
  rw [apply_row_core_account_eq]
  simp [h]

theorem apply_row_core_cost_center_set (row : GLCorrectionLine) (g : GLEntry)
    (h : row.cost_center ≠ "") : (apply_row_core row g).cost_center = row.cost_center := by
  rw [apply_row_core_cost_center_eq]
  by_cases h2 : g.cost_center = row.cost_center
  · simp [h2]
  · simp [h, h2]

theorem apply_row_core_cost_center_empty (row : GLCorrectionLine) (g : GLEntry)
    (h : row.cost_center = "") : (apply_row_core row g).cost_center = g.cost_center := by
  rw [apply_row_core_cost_center_eq]
  simp [h]

/- The apply loop succeeds and equals the generic per-name fold when every
   referenced GL Entry resolves. -/
theorem apply_rows_ok (rows : List GLCorrectionLine) :
    ∀ db : List GLEntry,
      (∀ row ∈ rows, row.reference_gl_entry ≠ "" →
        (db.find? (fun e => e.name == row.reference_gl_entry)).isSome) →
      apply_rows db rows =
        Except.ok (foldRowsDB apply_row_core db rows, countRefs rows) := by
  induction rows with
  | nil => intro db _; rfl
  | cons row rest ih =>
    intro db h
    by_cases hr : row.reference_gl_entry = ""
    · have hstep : apply_rows db (row :: rest) = apply_rows db rest := by
        simp [apply_rows, hr]
      have h2 : foldRowsDB apply_row_core db (row :: rest) =
          foldRowsDB apply_row_core db rest := by
        show foldRowsDB apply_row_core
          (if row.reference_gl_entry = "" then db else _) rest = _
        rw [if_pos hr]
      have hcount : countRefs (row :: rest) = countRefs rest := by
        simp [countRefs, hr]
      rw [hstep, h2, hcount]
      exact ih db (fun r hm hne => h r (List.mem_cons_of_mem row hm) hne)
    · have hfindsome := h row (List.mem_cons_self row rest) hr
      obtain ⟨g, hg⟩ := Option.isSome_iff_exists.mp hfindsome
      have hupd : update_gl_entry_amounts db row.reference_gl_entry row.debit row.credit =
          Except.ok (db.map (fun e => if e.name = row.reference_gl_entry then
            update_gl_entry_amounts_core e row.debit row.credit else e)) := by
        unfold update_gl_entry_amounts
        rw [hg]
      have hcomp : apply_account_cc_updates
          (db.map (fun e => if e.name = row.reference_gl_entry then
            update_gl_entry_amounts_core e row.debit row.credit else e)) row =
          db.map (fun e => if e.name = row.reference_gl_entry then
            apply_row_core row e else e) := by
        unfold apply_account_cc_updates
        rw [List.map_map]
        congr 1
        funext e
        by_cases hn : e.name = row.reference_gl_entry
        · simp only [Function.comp_apply, if_pos hn,
            update_gl_entry_amounts_core_name, apply_row_core]
        · simp only [Function.comp_apply, if_neg hn]
      have hstep : apply_rows db (row :: rest) =
          match apply_rows (db.map (fun e => if e.name = row.reference_gl_entry then
            apply_row_core row e else e)) rest with
          | Except.error e => Except.error e
          | Except.ok (db3, n) => Except.ok (db3, n + 1) := by
        simp only [apply_rows, if_neg hr, hupd, hcomp]
      have hFpres : ∀ a : GLEntry,
          ((fun e => if e.name = row.reference_gl_entry then apply_row_core row e else e) a).name
            = a.name := by
        intro a
        by_cases hn : a.name = row.reference_gl_entry <;>
          simp [hn, apply_row_core_name]
      have hpres : ∀ r ∈ rest, r.reference_gl_entry ≠ "" →
          ((db.map (fun e => if e.name = row.reference_gl_entry then
            apply_row_core row e else e)).find?
              (fun e => e.name == r.reference_gl_entry)).isSome := by
        intro r hm hne
        rw [find_name_map (fun e => e.name) _ hFpres db r.reference_gl_entry]
        have := h r (List.mem_cons_of_mem row hm) hne
        simp only [Option.isSome_map']
        exact this
      rw [hstep, ih _ hpres]
      have h2 : foldRowsDB apply_row_core db (row :: rest) =
          foldRowsDB apply_row_core (db.map (fun e =>
            if e.name = row.reference_gl_entry then apply_row_core row e else e)) rest := by
        show foldRowsDB apply_row_core
          (if row.reference_gl_entry = "" then db else _) rest = _
        rw [if_neg hr]
      have hcount : countRefs (row :: rest) = countRefs rest + 1 := by
        simp [countRefs, hr, Nat.add_comm]
      rw [h2, hcount]

/-- C2 counterexample: the claim says apply_gl_updates writes the row's account into
the referenced GL Entry whenever it differs from the stored value.  Here the row's
account is empty and differs from the stored account ACC-X, the call succeeds, yet
the stored GL Entry is returned completely unchanged (its account stays ACC-X): the
source only writes a truthy (non-empty) account. -/
theorem apply_gl_updates_account_counterexample :
    row2cx.account ≠ g2cx.account ∧
    doc2cx.docstatus = 1 ∧
    doc2cx.entries = [row2cx] ∧
    row2cx.reference_gl_entry = g2cx.name ∧
    GLCorrection.apply_gl_updates [g2cx] doc2cx [] =
      Except.ok ([g2cx], { doc2cx with status := "GL Updated" }, [applyComment 1], 1) ∧
    g2cx.account = "ACC-X" := by decide

/-- C2 amended: on a document that is not submitted apply_gl_updates throws and
changes nothing; on a submitted document whose referenced GL Entries all resolve
(references pairwise distinct) it returns updated = the number of rows with a
non-empty reference_gl_entry, and each referenced GL Entry receives the row's debit
and credit, the four currency amounts as computed by update_gl_entry_amounts, and the
row's account and cost_center exactly when those row fields are non-empty (writes
only happen when they also differ, which does not change the resulting value); rows
with an empty reference are skipped and unreferenced GL Entries are untouched. -/
theorem apply_gl_updates_spec (db : List GLEntry) (doc : GLCorrection)
    (comments : List String) :
    (doc.docstatus ≠ 1 →
      GLCorrection.apply_gl_updates db doc comments =
        Except.error "Apply GL Updates is only allowed after submission (docstatus = 1).") ∧
    (doc.docstatus = 1 →
     nodupRefs doc.entries →
     (∀ row ∈ doc.entries, row.reference_gl_entry ≠ "" →
        (db.find? (fun e => e.name == row.reference_gl_entry)).isSome) →
     ∃ db2,
       GLCorrection.apply_gl_updates db doc comments =
         Except.ok (db2, { doc with status := "GL Updated" },
           comments ++ [applyComment (countRefs doc.entries)], countRefs doc.entries) ∧
       (∀ row ∈ doc.entries, row.reference_gl_entry ≠ "" →
         ∀ g, db.find? (fun e => e.name == row.reference_gl_entry) = some g →
           db2.find? (fun e => e.name == row.reference_gl_entry) =
             some (apply_row_core row g) ∧
           (apply_row_core row g).debit = row.debit ∧
           (apply_row_core row g).credit = row.credit ∧
           (apply_row_core row g).debit_in_account_currency =
             (update_gl_entry_amounts_core g row.debit row.credit).debit_in_account_currency ∧
           (apply_row_core row g).credit_in_account_currency =
             (update_gl_entry_amounts_core g row.debit row.credit).credit_in_account_currency ∧
           (apply_row_core row g).debit_in_transaction_currency =
             (update_gl_entry_amounts_core g row.debit row.credit).debit_in_transaction_currency ∧
           (apply_row_core row g).credit_in_transaction_currency =
             (update_gl_entry_amounts_core g row.debit row.credit).credit_in_transaction_currency ∧
           (row.account ≠ "" → (apply_row_core row g).account = row.account) ∧
           (row.account = "" → (apply_row_core row g).account = g.account) ∧
           (row.cost_center ≠ "" → (apply_row_core row g).cost_center = row.cost_center) ∧
           (row.cost_center = "" → (apply_row_core row g).cost_center = g.cost_center)) ∧
       (∀ g ∈ db, (∀ row ∈ doc.entries, row.reference_gl_entry ≠ g.name) → g ∈ db2)) := by
  constructor
  · intro h
    unfold GLCorrection.apply_gl_updates
    rw [if_pos h]
  · intro h1 hnd hres
    refine ⟨foldRowsDB apply_row_core db doc.entries, ?_, ?_, ?_⟩
    · unfold GLCorrection.apply_gl_updates
      rw [if_neg (by simp [h1]), apply_rows_ok doc.entries db hres]
    · intro row hm hne g hg
      exact ⟨foldRowsDB_find apply_row_core apply_row_core_name db doc.entries row g
          hnd hm hne hg,
        apply_row_core_debit row g, apply_row_core_credit row g, rfl, rfl, rfl, rfl,
        fun h => apply_row_core_account_set row g h,
        fun h => apply_row_core_account_empty row g h,
        fun h => apply_row_core_cost_center_set row g h,
        fun h => apply_row_core_cost_center_empty row g h⟩
    · intro g hg hnotref
      exact foldRowsDB_not_referenced apply_row_core db doc.entries g hg hnotref

/-- C2 witness: applying a submitted one-row correction that halves the debit of the
stored entry G1 and renames its account to A2 succeeds, returns updated = 1, and the
updated entry carries debit 5, the rescaled amounts and the new account. -/
theorem apply_gl_updates_spec_witness :
    ∃ db2,
      GLCorrection.apply_gl_updates [g2w] doc2w [] =
        Except.ok (db2, { doc2w with status := "GL Updated" },
          [] ++ [applyComment (countRefs doc2w.entries)], countRefs doc2w.entries) ∧
      db2.find? (fun e => e.name == row2w.reference_gl_entry) =
        some (apply_row_core row2w g2w) ∧
      (apply_row_core row2w g2w).debit = row2w.debit ∧
      (apply_row_core row2w g2w).account = row2w.account := by
  obtain ⟨db2, hok, hrows, huntouched⟩ :=
    (apply_gl_updates_spec [g2w] doc2w []).2 rfl
      (by simp [nodupRefs, doc2w])
      (by decide)
  obtain ⟨hfind, hdebit, hcredit, hdacc, hcacc, hdtrn, hctrn, haccset, haccempty,
    hccset, hccempty⟩ := hrows row2w (by decide) (by decide) g2w (by decide)
  exact ⟨db2, hok, hfind, hdebit, haccset (by decide)⟩

/-- C8: on a document that is not submitted rollback throws; on every submitted
document whose entries rows carry the original_* snapshot (references pairwise
distinct, matching the one-row-per-entry shape fetch_gl_entries produces), rollback
writes each referenced GL Entry's debit, credit and four currency amounts back to
the snapshot, restores account and cost_center when the snapshot values are
non-empty, resets each referenced child row's debit and credit to the snapshot,
leaves unreferenced GL Entries and rows without a reference untouched, and returns
the number of rows with a non-empty reference_gl_entry.  The database argument is
universally quantified, so this holds after any sequence of apply_gl_updates
calls. -/
theorem rollback_gl_updates_spec (db : List GLEntry) (doc : GLCorrection)
    (comments : List String) :
    (doc.docstatus ≠ 1 →
      GLCorrection.rollback_gl_updates db doc comments =
        Except.error "Rollback is only allowed after submission.") ∧
    (doc.docstatus = 1 →
     nodupRefs doc.entries →
     ∃ db2 doc2,
       GLCorrection.rollback_gl_updates db doc comments =
         Except.ok (db2, doc2,
           comments ++ [rollbackComment (countRefs doc.entries)], countRefs doc.entries) ∧
       doc2.entries = rollback_entries_reset doc.entries ∧
       doc2.status = "Rolled Back" ∧
       (∀ row ∈ doc.entries, row.reference_gl_entry ≠ "" →
         ∀ g, db.find? (fun e => e.name == row.reference_gl_entry) = some g →
           db2.find? (fun e => e.name == row.reference_gl_entry) =
             some (restore_gl_entry_originals row g) ∧
           (restore_gl_entry_originals row g).debit = row.original_debit ∧
           (restore_gl_entry_originals row g).credit = row.original_credit ∧
           (restore_gl_entry_originals row g).debit_in_account_currency =
             row.original_debit_in_account_currency ∧
           (restore_gl_entry_originals row g).credit_in_account_currency =
             row.original_credit_in_account_currency ∧
           (restore_gl_entry_originals row g).debit_in_transaction_currency =
             row.original_debit_in_transaction_currency ∧
           (restore_gl_entry_originals row g).credit_in_transaction_currency =
             row.original_credit_in_transaction_currency ∧
           (row.original_account ≠ "" →
             (restore_gl_entry_originals row g).account = row.original_account) ∧
           (row.original_account = "" →
             (restore_gl_entry_originals row g).account = g.account) ∧
           (row.original_cost_center ≠ "" →
             (restore_gl_entry_originals row g).cost_center = row.original_cost_center) ∧
           (row.original_cost_center = "" →
             (restore_gl_entry_originals row g).cost_center = g.cost_center)) ∧
       (∀ g ∈ db, (∀ row ∈ doc.entries, row.reference_gl_entry ≠ g.name) → g ∈ db2)) := by
  constructor
  · intro h
    unfold GLCorrection.rollback_gl_updates
    rw [if_pos h]
  · intro h1 hnd
    refine ⟨foldRowsDB restore_gl_entry_originals db doc.entries,
      { ({ doc with entries := rollback_entries_reset doc.entries }
          : GLCorrection).update_totals with
        status := "Rolled Back" }, ?_, ?_, rfl, ?_, ?_⟩
    · unfold GLCorrection.rollback_gl_updates
      rw [if_neg (show ¬doc.docstatus ≠ 1 by simp [h1])]
    · rw [update_totals_entries]
    · intro row hm hrne g hg
      exact ⟨foldRowsDB_find restore_gl_entry_originals restore_gl_entry_originals_name
          db doc.entries row g hnd hm hrne hg,
        rfl, rfl, rfl, rfl, rfl, rfl,
        fun h => by simp [restore_gl_entry_originals, h],
        fun h => by simp [restore_gl_entry_originals, h],
        fun h => by simp [restore_gl_entry_originals, h],
        fun h => by simp [restore_gl_entry_originals, h]⟩
    · intro g hg hnotref
      exact foldRowsDB_not_referenced restore_gl_entry_originals db doc.entries g hg hnotref

/-- C8 witness: rolling back a submitted one-row correction with a balanced snapshot
succeeds with restored = 1, resets the child row, and restores the referenced entry's
amounts and account from the snapshot. -/
theorem rollback_gl_updates_spec_witness :
    ∃ db2 doc2,
      GLCorrection.rollback_gl_updates [g8w] doc8w [] =
        Except.ok (db2, doc2,
          [] ++ [rollbackComment (countRefs doc8w.entries)], countRefs doc8w.entries) ∧
      doc2.entries = rollback_entries_reset doc8w.entries ∧
      db2.find? (fun e => e.name == row8w.reference_gl_entry) =
        some (restore_gl_entry_originals row8w g8w) ∧
      (restore_gl_entry_originals row8w g8w).debit = row8w.original_debit ∧
      (restore_gl_entry_originals row8w g8w).account = row8w.original_account ∧
      (restore_gl_entry_originals row8w g8w).cost_center = g8w.cost_center := by
  obtain ⟨db2, doc2, hok, hentries, hstatus, hrows, huntouched⟩ :=
    (rollback_gl_updates_spec [g8w] doc8w []).2 rfl
      (by simp [nodupRefs, doc8w])
  obtain ⟨hfind, hdebit, hcredit, hdacc, hcacc, hdtrn, hctrn, haccset, haccempty,
    hccset, hccempty⟩ := hrows row8w (by decide) (by decide) g8w (by decide)
  exact ⟨db2, doc2, hok, hentries, hfind, hdebit, haccset (by decide),
    hccempty (by decide)⟩

/-- C3 counterexample: the claim says every draft GL Correction with the three filter
fields set and at least one matching GL Entry gets its table filled and the counts
returned.  Here the single matching entry is unbalanced (debit 100, credit 0), so the
save at the end of fetch_gl_entries re-runs totals validation and throws instead of
returning. -/
theorem fetch_gl_entries_counterexample :
    doc3cx.docstatus = 0 ∧
    doc3cx.company ≠ "" ∧ doc3cx.voucher_type ≠ "" ∧ doc3cx.voucher_no ≠ "" ∧
    get_all_gl_entries [g3cx] doc3cx.company doc3cx.voucher_type doc3cx.voucher_no =
      [g3cx] ∧
    GLCorrection.fetch_gl_entries [g3cx] doc3cx =
      Except.error "Total Debit and Total Credit must be equal." := by decide

/-- C3 amended: fetch_gl_entries throws when the document is not draft, when the
three filter fields are not all set, or when no non-cancelled GL Entry of the company
/ voucher_type / voucher_no matches; otherwise it replaces the entries table with one
row per matched entry (each row holding the editable fields and the original_*
snapshot copied from the fetched values) and returns the count and recomputed totals,
provided the fetched entries balance within 0.0001 (the final save re-runs totals
validation and throws otherwise). -/
theorem fetch_gl_entries_spec (db : List GLEntry) (doc : GLCorrection) :
    (doc.docstatus ≠ 0 →
      GLCorrection.fetch_gl_entries db doc =
        Except.error "You can only fetch GL Entries while the document is in Draft.") ∧
    (doc.docstatus = 0 →
      (doc.company = "" ∨ doc.voucher_type = "" ∨ doc.voucher_no = "") →
      GLCorrection.fetch_gl_entries db doc =
        Except.error "Please set Company, Voucher Type and Voucher No first.") ∧
    (∀ g : GLEntry,
      g ∈ get_all_gl_entries db doc.company doc.voucher_type doc.voucher_no ↔
        (g ∈ db ∧ g.company = doc.company ∧ g.voucher_type = doc.voucher_type ∧
          g.voucher_no = doc.voucher_no ∧ g.is_cancelled = false)) ∧
    (doc.docstatus = 0 → doc.company ≠ "" → doc.voucher_type ≠ "" →
      doc.voucher_no ≠ "" →
      get_all_gl_entries db doc.company doc.voucher_type doc.voucher_no = [] →
      GLCorrection.fetch_gl_entries db doc =
        Except.error "No GL Entries found for this voucher.") ∧
    (doc.docstatus = 0 → doc.company ≠ "" → doc.voucher_type ≠ "" →
      doc.voucher_no ≠ "" →
      ∀ matched,
        get_all_gl_entries db doc.company doc.voucher_type doc.voucher_no = matched →
        matched ≠ [] →
        |(matched.map (fun g => g.debit)).sum - (matched.map (fun g => g.credit)).sum|
          ≤ 1 / 10000 →
        ∃ doc2, GLCorrection.fetch_gl_entries db doc =
            Except.ok (doc2,
              { count := matched.length,
                total_debit := (matched.map (fun g => g.debit)).sum,
                total_credit := (matched.map (fun g => g.credit)).sum }) ∧
          doc2.entries = matched.map mk_entry_row ∧
          doc2.total_debit = (matched.map (fun g => g.debit)).sum ∧
          doc2.total_credit = (matched.map (fun g => g.credit)).sum) ∧
    (∀ gle : GLEntry,
      (mk_entry_row gle).account = gle.account ∧
      (mk_entry_row gle).cost_center = gle.cost_center ∧
      (mk_entry_row gle).debit = gle.debit ∧
      (mk_entry_row gle).credit = gle.credit ∧
      (mk_entry_row gle).reference_gl_entry = gle.name ∧
      (mk_entry_row gle).original_account = gle.account ∧
      (mk_entry_row gle).original_cost_center = gle.cost_center ∧
      (mk_entry_row gle).original_debit = gle.debit ∧
      (mk_entry_row gle).original_credit = gle.credit ∧
      (mk_entry_row gle).original_debit_in_account_currency =
        gle.debit_in_account_currency ∧
      (mk_entry_row gle).original_credit_in_account_currency =
        gle.credit_in_account_currency ∧
      (mk_entry_row gle).original_debit_in_transaction_currency =
        gle.debit_in_transaction_currency ∧
      (mk_entry_row gle).original_credit_in_transaction_currency =
        gle.credit_in_transaction_currency) := by
  refine ⟨?_, ?_, ?_, ?_, ?_, ?_⟩
  · intro h
    unfold GLCorrection.fetch_gl_entries
    rw [if_pos h]
  · intro h0 hor
    unfold GLCorrection.fetch_gl_entries
    rw [if_neg (by simp [h0]), if_pos hor]
  · intro g
    simp only [get_all_gl_entries, List.mem_filter, Bool.and_eq_true, beq_iff_eq,
      Bool.not_eq_true']
    constructor
    · rintro ⟨hm, ⟨⟨⟨hc, hvt⟩, hvn⟩, hic⟩⟩
      exact ⟨hm, hc, hvt, hvn, hic⟩
    · rintro ⟨hm, hc, hvt, hvn, hic⟩
      exact ⟨hm, ⟨⟨⟨hc, hvt⟩, hvn⟩, hic⟩⟩
  · intro h0 hc hvt hvn hempty
    unfold GLCorrection.fetch_gl_entries
    rw [if_neg (by simp [h0]), if_neg (by simp [hc, hvt, hvn]), hempty, if_pos rfl]
  · intro h0 hc hvt hvn matched hmatched hne hbal
    have hentries_ne : matched.map mk_entry_row ≠ [] := by
      intro hx
      exact hne (List.map_eq_nil_iff.mp hx)
    have hmapdebit : ∀ l : List GLEntry,
        (l.map mk_entry_row).map (fun r => r.debit) = l.map (fun g => g.debit) := by
      intro l
      rw [List.map_map]
      rfl
    have hmapcredit : ∀ l : List GLEntry,
        (l.map mk_entry_row).map (fun r => r.credit) = l.map (fun g => g.credit) := by
      intro l
      rw [List.map_map]
      rfl
    have hval : ({ doc with entries := matched.map mk_entry_row }
          : GLCorrection).validate =
        Except.ok ({ doc with entries := matched.map mk_entry_row }
          : GLCorrection).update_totals := by
      unfold GLCorrection.validate GLCorrection.validate_totals
      rw [update_totals_entries]
      rw [if_neg hentries_ne]
      rw [if_neg ?hgt]
      case hgt =>
        rw [not_lt, ratAbs_eq_abs, update_totals_difference,
          update_totals_total_debit, update_totals_total_credit,
          hmapdebit, hmapcredit]
        exact hbal
    refine ⟨({ doc with entries := matched.map mk_entry_row }
        : GLCorrection).update_totals, ?_, update_totals_entries _, ?_, ?_⟩
    · unfold GLCorrection.fetch_gl_entries
      rw [if_neg (by simp [h0]), if_neg (by simp [hc, hvt, hvn]), hmatched,
        if_neg hne]
      simp only [hval]
      rw [update_totals_total_debit, update_totals_total_credit]
      dsimp only
      rw [hmapdebit, hmapcredit]
    · rw [update_totals_total_debit]
      show ((matched.map mk_entry_row).map (fun r => r.debit)).sum =
        (matched.map (fun g => g.debit)).sum
      rw [hmapdebit]
    · rw [update_totals_total_credit]
      show ((matched.map mk_entry_row).map (fun r => r.credit)).sum =
        (matched.map (fun g => g.credit)).sum
      rw [hmapcredit]
  · intro gle
    exact ⟨rfl, rfl, rfl, rfl, rfl, rfl, rfl, rfl, rfl, rfl, rfl, rfl, rfl⟩

/-- C3 witness: fetching a two-row balanced voucher out of a three-entry database
returns count 2 with totals 100 / 100 and fills the table with the two snapshot
rows. -/
theorem fetch_gl_entries_spec_witness :
    ∃ doc2, GLCorrection.fetch_gl_entries [g3a, g3b, g3c] doc3w =
        Except.ok (doc2,
          { count := ([g3a, g3b] : List GLEntry).length,
            total_debit := (([g3a, g3b] : List GLEntry).map (fun g => g.debit)).sum,
            total_credit :=
              (([g3a, g3b] : List GLEntry).map (fun g => g.credit)).sum }) ∧
      doc2.entries = [g3a, g3b].map mk_entry_row ∧
      doc2.total_debit = (([g3a, g3b] : List GLEntry).map (fun g => g.debit)).sum ∧
      doc2.total_credit = (([g3a, g3b] : List GLEntry).map (fun g => g.credit)).sum :=
  (fetch_gl_entries_spec [g3a, g3b, g3c] doc3w).2.2.2.2.1 rfl (by decide) (by decide)
    (by decide) [g3a, g3b] (by decide) (by decide)
    (by rw [← ratAbs_eq_abs]; decide)

/-- C6 counterexample: the claim says every submitted GL Correction gets the
created-0 result when the Repost Item Valuation DocType is missing, but a submitted
correction with an empty company throws instead (the field check precedes the
DocType check). -/
theorem repost_valuation_counterexample :
    doc6cx.docstatus = 1 ∧
    GLCorrection.repost_valuation false "RIV-1" doc6cx [] =
      Except.error "Please set Company, Voucher Type and Voucher No first." := by
  decide

/-- C6 amended: for every submitted GL Correction with company, voucher_type and
voucher_no set: when the Repost Item Valuation DocType does not exist the method
creates nothing, logs the missing-tool comment and returns created = 0; when it
exists the method creates a Repost Item Valuation carrying the correction's company,
voucher_type and voucher_no, logs a comment naming it, and returns created = 1 with
its name. -/
theorem repost_valuation_spec (doc : GLCorrection) (fresh_name : String)
    (comments : List String)
    (h1 : doc.docstatus = 1) (h2 : doc.company ≠ "") (h3 : doc.voucher_type ≠ "")
    (h4 : doc.voucher_no ≠ "") :
    GLCorrection.repost_valuation false fresh_name doc comments =
      Except.ok (none, comments ++ [rivMissingMsg],
        { created := 0, repost_name := none }) ∧
    ∃ cs, GLCorrection.repost_valuation true fresh_name doc comments =
        Except.ok (some { name := fresh_name, company := doc.company,
                          voucher_type := doc.voucher_type,
                          voucher_no := doc.voucher_no },
          cs, { created := 1, repost_name := some fresh_name }) ∧
      rivCreatedMsg fresh_name doc.voucher_type doc.voucher_no ∈ cs := by
  constructor
  · unfold GLCorrection.repost_valuation
    rw [if_neg (by simp [h1]), if_neg (by simp [h2, h3, h4]), if_pos rfl]
  · refine ⟨(if doc.voucher_type = "Purchase Receipt" ∨ doc.voucher_type = "Stock Entry" ∨
        doc.voucher_type = "Purchase Invoice" ∨ doc.voucher_type = "Sales Invoice" then
        comments
      else comments ++ [rivWarnMsg doc.voucher_type]) ++
        [rivCreatedMsg fresh_name doc.voucher_type doc.voucher_no], ?_, ?_⟩
    · unfold GLCorrection.repost_valuation
      rw [if_neg (by simp [h1]), if_neg (by simp [h2, h3, h4]), if_neg (by simp)]
    · by_cases hw : doc.voucher_type = "Purchase Receipt" ∨ doc.voucher_type = "Stock Entry" ∨
          doc.voucher_type = "Purchase Invoice" ∨ doc.voucher_type = "Sales Invoice" <;>
        simp [hw]

/-- C6 witness: a submitted correction for voucher Journal Entry JV-1 of company C
gets created = 0 with the missing-tool comment when the DocType is absent, and a
created = 1 result naming RIV-1 when it is present. -/
theorem repost_valuation_spec_witness :
    GLCorrection.repost_valuation false "RIV-1" doc6w [] =
      Except.ok (none, [] ++ [rivMissingMsg],
        { created := 0, repost_name := none }) ∧
    ∃ cs, GLCorrection.repost_valuation true "RIV-1" doc6w [] =
        Except.ok (some { name := "RIV-1", company := doc6w.company,
                          voucher_type := doc6w.voucher_type,
                          voucher_no := doc6w.voucher_no },
          cs, { created := 1, repost_name := some "RIV-1" }) ∧
      rivCreatedMsg "RIV-1" doc6w.voucher_type doc6w.voucher_no ∈ cs :=
  repost_valuation_spec doc6w "RIV-1" [] rfl (by decide) (by decide) (by decide)

/-- C7: update_source_entry on a submitted Stock Valuation Fix with a nonzero target
rate: any source_voucher_type other than Purchase Receipt throws; with a Purchase
Receipt source, a set source_row_name selects exactly the row with that name
(throwing when absent) and an empty source_row_name selects the rows whose item_code
matches with an empty or matching warehouse (throwing when none match); selected rows
whose rate is already within 0.0000001 of the target are skipped; every updated row
receives the target rate, amount = qty * rate and the base / net variants with the
base amounts scaled by the receipt's conversion rate; unmatched rows are untouched
and the result reports the number and names of the updated rows. -/
theorem svf_update_source_entry_spec (prs : List PurchaseReceipt)
    (doc : StockValuationFix)
    (h1 : doc.docstatus = 1) (h2 : doc.target_valuation_rate ≠ 0) :
    (doc.source_voucher_type ≠ "Purchase Receipt" →
      isError (StockValuationFix.update_source_entry prs doc) = true) ∧
    (doc.source_voucher_type = "Purchase Receipt" → doc.source_voucher_no ≠ "" →
      ∀ pr, prs.find? (fun p => p.name == doc.source_voucher_no) = some pr →
        (isError (selected_rows doc pr) = true →
          isError (StockValuationFix.update_source_entry prs doc) = true) ∧
        (∀ sel, selected_rows doc pr = Except.ok sel →
          (sel.filter (fun r => !rate_within_tolerance r.rate doc.target_valuation_rate)
              = [] →
            StockValuationFix.update_source_entry prs doc =
              Except.ok (prs, doc,
                { updated := 0, rows := [], new_rate := doc.target_valuation_rate })) ∧
          (∀ upd,
            sel.filter (fun r => !rate_within_tolerance r.rate doc.target_valuation_rate)
              = upd →
            upd ≠ [] →
            ∃ pr2 r0, sel.head? = some r0 ∧
              StockValuationFix.update_source_entry prs doc =
                Except.ok (prs.map (fun p => if p.name = pr.name then pr2 else p),
                  { doc with source_current_rate := r0.rate },
                  { updated := upd.length, rows := upd.map (fun r => r.name),
                    new_rate := doc.target_valuation_rate }) ∧
              pr2.items = pr.items.map (fun r =>
                if (upd.map (fun x => x.name)).contains r.name then
                  update_pr_item r doc.target_valuation_rate (prConversionRate pr)
                else r) ∧
              (∀ r ∈ pr.items, (upd.map (fun x => x.name)).contains r.name = false →
                r ∈ pr2.items)))) ∧
    (∀ pr : PurchaseReceipt,
      (doc.source_row_name ≠ "" →
        (∀ r, pr.items.find? (fun x => x.name == doc.source_row_name) = some r →
          selected_rows doc pr = Except.ok [r]) ∧
        (pr.items.find? (fun x => x.name == doc.source_row_name) = none →
          isError (selected_rows doc pr) = true)) ∧
      (doc.source_row_name = "" →
        (pr.items.filter (pr_row_matches doc) ≠ [] →
          selected_rows doc pr = Except.ok (pr.items.filter (pr_row_matches doc))) ∧
        (pr.items.filter (pr_row_matches doc) = [] →
          isError (selected_rows doc pr) = true))) ∧
    (∀ r : PurchaseReceiptItem, ∀ c : Rat,
      (update_pr_item r doc.target_valuation_rate c).rate = doc.target_valuation_rate ∧
      (update_pr_item r doc.target_valuation_rate c).valuation_rate =
        r.valuation_rate.map (fun _ => doc.target_valuation_rate) ∧
      (update_pr_item r doc.target_valuation_rate c).amount =
        r.amount.map (fun _ => r.qty * doc.target_valuation_rate) ∧
      (update_pr_item r doc.target_valuation_rate c).base_rate =
        r.base_rate.map (fun _ => doc.target_valuation_rate * c) ∧
      (update_pr_item r doc.target_valuation_rate c).base_amount =
        r.base_amount.map (fun _ => r.qty * doc.target_valuation_rate * c) ∧
      (update_pr_item r doc.target_valuation_rate c).net_rate =
        r.net_rate.map (fun _ => doc.target_valuation_rate) ∧
      (update_pr_item r doc.target_valuation_rate c).net_amount =
        r.net_amount.map (fun _ => r.qty * doc.target_valuation_rate) ∧
      (update_pr_item r doc.target_valuation_rate c).base_net_rate =
        r.base_net_rate.map (fun _ => doc.target_valuation_rate * c) ∧
      (update_pr_item r doc.target_valuation_rate c).base_net_amount =
        r.base_net_amount.map (fun _ => r.qty * doc.target_valuation_rate * c)) ∧
    (∀ a b : Rat, rate_within_tolerance a b = true ↔ |a - b| < 1 / 10000000) := by
  refine ⟨?_, ?_, ?_, ?_, ?_⟩
  · intro hpr
    unfold StockValuationFix.update_source_entry
    rw [if_neg (by simp [h1]), if_neg h2]
    by_cases hvt : doc.source_voucher_type = ""
    · rw [if_pos (Or.inl hvt)]
      rfl
    · by_cases hvn : doc.source_voucher_no = ""
      · rw [if_pos (Or.inr hvn)]
        rfl
      · rw [if_neg (by simp [hvt, hvn]), if_pos hpr]
        rfl
  · intro hpr hvn pr hfind
    have hmain : StockValuationFix.update_source_entry prs doc =
        (match selected_rows doc pr with
         | Except.error e => Except.error e
         | Except.ok rows_to_update =>
           let updated_rows := rows_to_update.filter
             (fun r => !rate_within_tolerance r.rate doc.target_valuation_rate)
           if updated_rows = [] then
             Except.ok (prs, doc,
               { updated := 0, rows := [], new_rate := doc.target_valuation_rate })
           else
             let names := updated_rows.map (fun r => r.name)
             let pr2 := { pr with items := pr.items.map (fun r =>
               if names.contains r.name then
                 update_pr_item r doc.target_valuation_rate (prConversionRate pr)
               else r) }
             let prs2 := prs.map (fun p => if p.name = pr.name then pr2 else p)
             let doc2 :=
               match rows_to_update.head? with
               | some r0 => { doc with source_current_rate := r0.rate }
               | none => doc
             Except.ok (prs2, doc2,
               { updated := updated_rows.length, rows := names,
                 new_rate := doc.target_valuation_rate })) := by
      unfold StockValuationFix.update_source_entry
      rw [if_neg (by simp [h1]), if_neg h2,
        if_neg (show ¬(doc.source_voucher_type = "" ∨ doc.source_voucher_no = "") from
          fun hor => hor.elim
            (fun hx => by rw [hpr] at hx; exact absurd hx (by decide)) hvn),
        if_neg (by simp [hpr]), hfind]
    constructor
    · intro hserr
      rw [hmain]
      cases hs : selected_rows doc pr with
      | error e => rfl
      | ok s =>
        rw [hs] at hserr
        simp [isError] at hserr
    · intro sel hsel
      rw [hmain, hsel]
      dsimp only
      constructor
      · intro hf
        rw [hf]
        rfl
      · intro upd hupd hne
        have hselne : sel ≠ [] := by
          intro hx
          rw [hx] at hupd
          simp at hupd
          exact hne hupd
        obtain ⟨r0, hr0⟩ : ∃ r0, sel.head? = some r0 := by
          cases sel with
          | nil => exact absurd rfl hselne
          | cons a t => exact ⟨a, rfl⟩
        refine ⟨{ pr with items := pr.items.map (fun r =>
            if (upd.map (fun x => x.name)).contains r.name then
              update_pr_item r doc.target_valuation_rate (prConversionRate pr)
            else r) }, r0, hr0, ?_, rfl, ?_⟩
        · rw [hupd, if_neg hne, hr0]
        · intro r hr hcont
          have hc2 : ¬((upd.map (fun x => x.name)).contains r.name = true) := by
            rw [hcont]
            decide
          have hfix : (fun r => if (upd.map (fun x => x.name)).contains r.name then
              update_pr_item r doc.target_valuation_rate (prConversionRate pr)
            else r) r = r := by
            exact if_neg hc2
          exact hfix ▸ List.mem_map_of_mem _ hr
  · intro pr
    constructor
    · intro hsrn
      constructor
      · intro r hfr
        unfold selected_rows
        rw [if_pos hsrn, hfr]
      · intro hfr
        unfold selected_rows
        rw [if_pos hsrn, hfr]
        rfl
    · intro hsrn
      constructor
      · intro hfne
        unfold selected_rows
        rw [if_neg (by simp [hsrn]), if_neg hfne]
      · intro hfe
        unfold selected_rows
        rw [if_neg (by simp [hsrn]), hfe, if_pos rfl]
        rfl
  · intro r c
    exact ⟨rfl, rfl, rfl, rfl, rfl, rfl, rfl, rfl, rfl⟩
  · intro a b
    simp [rate_within_tolerance, svfEps, ratAbs_eq_abs]

/-- C7 witness: on Purchase Receipt PR-1 (conversion rate 2) a submitted fix
targeting rate 5 for item ITM in warehouse WH with no source row name updates exactly
the matching row R1 and reports it, leaving the non-matching row R2 untouched. -/
theorem svf_update_source_entry_spec_witness :
    ∃ pr2 r0, ([pritem7a] : List PurchaseReceiptItem).head? = some r0 ∧
      StockValuationFix.update_source_entry [pr7] svf7w =
        Except.ok ([pr7].map (fun p => if p.name = pr7.name then pr2 else p),
          { svf7w with source_current_rate := r0.rate },
          { updated := ([pritem7a] : List PurchaseReceiptItem).length,
            rows := ([pritem7a] : List PurchaseReceiptItem).map (fun r => r.name),
            new_rate := svf7w.target_valuation_rate }) ∧
      pr2.items = pr7.items.map (fun r =>
        if (([pritem7a] : List PurchaseReceiptItem).map (fun x => x.name)).contains
            r.name then
          update_pr_item r svf7w.target_valuation_rate (prConversionRate pr7)
        else r) ∧
      (∀ r ∈ pr7.items,
        (([pritem7a] : List PurchaseReceiptItem).map (fun x => x.name)).contains r.name
          = false →
        r ∈ pr2.items) := by
  obtain ⟨hA, hB, hC, hD, hE⟩ :=
    svf_update_source_entry_spec [pr7] svf7w rfl (by decide)
  have h := hB rfl (by decide) pr7 (by decide)
  exact (h.2 [pritem7a] (by decide)).2 [pritem7a] (by decide) (by decide)

end GLFixTool
